import Mathlib

/-!
Verification of the compilation-caching benchmark notebook
(`src/jit_profiling.ipynb`).

The notebook is straight-line script code: it defines a matrix
multiplication `matmul(x, y) = jnp.dot(x, y)`, builds two 2048 x 2048
float32 arrays of ones, measures the raw function once, wraps it with
`jax.jit`, and measures the wrapped function twice (cold and warm),
printing a time line and a memory line around each run.

The embedding below translates the notebook cell by cell.  Arrays are
modelled as dense rational-valued matrices with an explicit shape and
dtype (summing 2048 ones is exact in float32, so exact arithmetic is
faithful here).  The measurement cells are modelled as state-passing
functions over an environment (`World`) that supplies the successive
readings of `time.time()` and of the process resident set size, and a
state (`St`) that records the event trace, the printed lines, the rich
display outputs and each cell's result.  `jax.jit` itself is an external
framework facility; the spec treats it as an opaque service, so its
cache is modelled from the spec's words (see `jaxJit`).
-/

/-- Element dtypes of the arrays the notebook can build; the source only
uses `jnp.float32`, `float64` is listed so that a signature can differ in
dtype as well as in shape. -/
inductive DType where
  | float32
  | float64
deriving DecidableEq, Repr

/-- A dense two-dimensional array: shape, dtype and entries.  Models the
`jnp` arrays the notebook manipulates; entries are exact rationals. -/
structure NDArray where
  rows : Nat
  cols : Nat
  dtype : DType
  data : Nat → Nat → ℚ

/-- `jnp.ones((n, m), dtype=dt)`: the constant-one array. -/
def jnpOnes (n m : Nat) (dt : DType) : NDArray :=
  { rows := n, cols := m, dtype := dt, data := fun _ _ => 1 }

/-- Cell 3: `def matmul(x, y): return jnp.dot(x, y)` — the matrix
product, entry `(i, j)` summing over the inner dimension of `x`. -/
def matmul (a b : NDArray) : NDArray :=
  { rows := a.rows
    cols := b.cols
    dtype := a.dtype
    data := fun i j => ∑ l ∈ Finset.range a.cols, a.data i l * b.data l j }

/-- Cell 3: `size = 2048`. -/
def size : Nat := 2048

/-- Cell 3: `x = jnp.ones((size, size), dtype=jnp.float32)`. -/
def x : NDArray := jnpOnes size size DType.float32

/-- Cell 3: `y = jnp.ones((size, size), dtype=jnp.float32)`. -/
def y : NDArray := jnpOnes size size DType.float32

/-- The shape/dtype descriptor of one array. -/
abbrev Sig := Nat × Nat × DType

/-- The descriptor of the two arrays of one call: the cache key. -/
abbrev CallSig := Sig × Sig

/-- The signature of an array: its shape and dtype. -/
def NDArray.signature (a : NDArray) : Sig := (a.rows, a.cols, a.dtype)

/-- Lookup of a call signature in the compile cache. -/
def lookupSig (cache : List (CallSig × (NDArray → NDArray → NDArray)))
    (k : CallSig) : Option (NDArray → NDArray → NDArray) :=
  match cache with
  | [] => none
  | e :: rest => if e.1 = k then some e.2 else lookupSig rest k

/-- Modelled from the spec: the handle `jax.jit` returns.  `jax.jit` is
code of the host framework, not of this repository; the spec describes it
as "an opaque cached artifact produced by wrapping a pure numeric
function with a compilation transform", "keyed implicitly by the
shapes/dtypes of its call arguments".  The model keeps the wrapped
function and a mapping from call signatures to compiled artifacts; an
artifact is the executable produced for the wrapped function when its
signature was first seen. -/
structure JitHandle where
  fn : NDArray → NDArray → NDArray
  cache : List (CallSig × (NDArray → NDArray → NDArray))

/-- Modelled from the spec: `jax.jit(f)` starts with an empty cache
("cache empty → cache populated for signature S"). -/
def jaxJit (f : NDArray → NDArray → NDArray) : JitHandle :=
  { fn := f, cache := [] }

/-- Modelled from the spec: one call through the handle.  A previously
seen signature reuses the stored artifact (no compilation, flag
`false`); a new signature compiles the wrapped function for that
signature, stores the artifact, and executes it (flag `true`).  Returns
the result, the did-compile flag and the updated handle. -/
def JitHandle.call (h : JitHandle) (a b : NDArray) :
    NDArray × Bool × JitHandle :=
  match lookupSig h.cache (a.signature, b.signature) with
  | some g => (g a b, false, h)
  | none =>
      (h.fn a b, true,
       { fn := h.fn, cache := ((a.signature, b.signature), h.fn) :: h.cache })

/-- Cell 5: `jit_matmul = jax.jit(matmul)`. -/
def jit_matmul : JitHandle := jaxJit matmul

/-- The handles reachable from `jaxJit f` by any sequence of calls. -/
inductive Reaches (f : NDArray → NDArray → NDArray) : JitHandle → Prop where
  | init : Reaches f (jaxJit f)
  | step (h : JitHandle) (a b : NDArray) :
      Reaches f h → Reaches f (h.call a b).2.2

/-- Calls never change the wrapped function. -/
theorem Reaches.fn_eq {f : NDArray → NDArray → NDArray} {h : JitHandle}
    (hr : Reaches f h) : h.fn = f := by
  induction hr with
  | init => rfl
  | step h a b _ ih =>
      unfold JitHandle.call
      cases hl : lookupSig h.cache (a.signature, b.signature) with
      | none => simpa [hl] using ih
      | some g => simpa [hl] using ih

/-- Cache coherence: every artifact stored in a reachable handle is the
compilation of the wrapped function, so it computes `f`. -/
theorem Reaches.coherent {f : NDArray → NDArray → NDArray} {h : JitHandle}
    (hr : Reaches f h) :
    ∀ k g, lookupSig h.cache k = some g → g = f := by
  induction hr with
  | init => intro k g hg; simp [jaxJit, lookupSig] at hg
  | step h a b hr ih =>
      intro k g hg
      unfold JitHandle.call at hg
      cases hl : lookupSig h.cache (a.signature, b.signature) with
      | some g0 => rw [hl] at hg; exact ih k g hg
      | none =>
          rw [hl] at hg
          simp only [lookupSig] at hg
          by_cases hk : (a.signature, b.signature) = k
          · rw [if_pos hk] at hg
            cases hg
            exact hr.fn_eq
          · rw [if_neg hk] at hg
            exact ih k g hg

/-- Claim C1: for every pair of arguments, the jit-wrapped function
returns a result identical to the unwrapped function on the same
arguments — wrapping changes only latency, never the value computed.
Stated for every handle reachable from `jaxJit f` by any call history,
so it covers both the compile-and-run path and the cached path. -/
theorem jit_result_identical_to_raw (f : NDArray → NDArray → NDArray)
    (h : JitHandle) (a b : NDArray) (hr : Reaches f h) :
    (h.call a b).1 = f a b := by
  unfold JitHandle.call
  cases hl : lookupSig h.cache (a.signature, b.signature) with
  | some g => simpa using hr.coherent _ g hl ▸ rfl
  | none => simp [hr.fn_eq]

/-- Witness for C1: the freshly wrapped `matmul` applied to the two
2048 x 2048 arrays of the script returns exactly `matmul x y`. -/
theorem jit_result_identical_to_raw_witness :
    ((jaxJit matmul).call x y).1 = matmul x y :=
  jit_result_identical_to_raw matmul (jaxJit matmul) x y Reaches.init

/-- Claim C2: the compiled-function cache is keyed by the argument
shape/dtype signature.  A call whose signature was seen before reuses
the cached artifact (did-compile flag `false`, handle unchanged); a call
with a new signature compiles freshly (flag `true`) and records the new
artifact; either way the call returns the correct result `f a b`. -/
theorem jit_cache_signature_keyed (f : NDArray → NDArray → NDArray)
    (h : JitHandle) (a b : NDArray) (hr : Reaches f h) :
    (h.call a b).2.1 =
        !(lookupSig h.cache (a.signature, b.signature)).isSome ∧
    (h.call a b).2.2 =
        (if (lookupSig h.cache (a.signature, b.signature)).isSome then h
         else { fn := h.fn,
                cache := ((a.signature, b.signature), h.fn) :: h.cache }) ∧
    (h.call a b).1 = f a b := by
  refine ⟨?_, ?_, jit_result_identical_to_raw f h a b hr⟩ <;>
    · unfold JitHandle.call
      cases hl : lookupSig h.cache (a.signature, b.signature) <;> simp [hl]

/-- Witness for C2: the statement instantiated at the freshly wrapped
`matmul` and the script's arrays (a new signature: the cache is empty). -/
theorem jit_cache_signature_keyed_witness :
    ((jaxJit matmul).call x y).2.1 =
        !(lookupSig (jaxJit matmul).cache (x.signature, y.signature)).isSome ∧
    ((jaxJit matmul).call x y).2.2 =
        (if (lookupSig (jaxJit matmul).cache (x.signature, y.signature)).isSome
         then jaxJit matmul
         else { fn := (jaxJit matmul).fn,
                cache := ((x.signature, y.signature), (jaxJit matmul).fn) ::
                  (jaxJit matmul).cache }) ∧
    ((jaxJit matmul).call x y).1 = matmul x y :=
  jit_cache_signature_keyed matmul (jaxJit matmul) x y Reaches.init

/-- Which callable a measured cell invokes. -/
inductive Callee where
  | raw
  | jitted
deriving DecidableEq, Repr

/-- The observable steps of the script, in program order: a
`gc.collect()` pass, a resident-memory sample (the raw rss in bytes), a
`time.time()` sample, construction of the jit wrapper, invocation of the
measured callable, and the blocking `block_until_ready()` wait. -/
inductive Event where
  | gcCollect
  | memSample (rssBytes : Nat)
  | timeSample (t : ℚ)
  | jitConstruct
  | invoke (who : Callee)
  | blockUntilReady
deriving DecidableEq, Repr

/-- One printed stdout line: the device banner of cell 1, an execution
time line, or a memory usage line. -/
inductive OutLine where
  | deviceLine (platform : String)
  | timeLine (label : String) (seconds : ℚ)
  | memLine (mb : ℚ)
deriving DecidableEq, Repr

/-- The environment of one run: the backend platform string, the value
returned by the i-th call to `time.time()` (`time.time` is the system
wall clock, so nothing here forces the sequence to be monotone), and the
resident set size in bytes returned by the i-th `memory_info()` call. -/
structure World where
  platform : String
  clock : Nat → ℚ
  rss : Nat → Nat

/-- The script state threaded through the cells: how many clock and rss
readings were taken, the event trace, the stdout lines, the rich display
outputs, and the `out` value each measured cell produced. -/
structure St where
  tIdx : Nat := 0
  mIdx : Nat := 0
  events : List Event := []
  stdout : List OutLine := []
  displays : List String := []
  results : List NDArray := []

/-- The state at the start of the run. -/
def St.init : St := {}

/-- `gc.collect()`. -/
def gc_collect (s : St) : St :=
  { s with events := s.events ++ [Event.gcCollect] }

/-- Cell 2: `get_memory_usage_mb` — the process rss in bytes converted
to megabytes, `rss / 1024 / 1024`. -/
def get_memory_usage_mb (rssBytes : Nat) : ℚ :=
  (rssBytes : ℚ) / 1024 / 1024

/-- One call of `get_memory_usage_mb()`: reads the next rss value from
the environment and records the sample. -/
def sampleMem (w : World) (s : St) : ℚ × St :=
  (get_memory_usage_mb (w.rss s.mIdx),
   { s with mIdx := s.mIdx + 1,
            events := s.events ++ [Event.memSample (w.rss s.mIdx)] })

/-- One call of `time.time()`: reads the next clock value from the
environment and records the sample. -/
def timeTime (w : World) (s : St) : ℚ × St :=
  (w.clock s.tIdx,
   { s with tIdx := s.tIdx + 1,
            events := s.events ++ [Event.timeSample (w.clock s.tIdx)] })

/-- Invocation of the measured callable. -/
def invokeEvt (who : Callee) (s : St) : St :=
  { s with events := s.events ++ [Event.invoke who] }

/-- `.block_until_ready()`: the synchronous join on the (possibly
asynchronously dispatched) result; returns the materialized array. -/
def block_until_ready (a : NDArray) (s : St) : NDArray × St :=
  (a, { s with events := s.events ++ [Event.blockUntilReady] })

/-- `print(...)`: appends one line to stdout. -/
def printLine (l : OutLine) (s : St) : St :=
  { s with stdout := s.stdout ++ [l] }

/-- Cell 1: `print("JAX Device:", ...)`. -/
def cell1 (w : World) (s : St) : St :=
  printLine (OutLine.deviceLine w.platform) s

/-- Cell 4, line by line: `gc.collect()`; `start_mem =
get_memory_usage_mb()`; `start_time = time.time()`; `out = matmul(x,
y).block_until_ready()`; `end_time = time.time()`; `end_mem =
get_memory_usage_mb()`; the two prints.  The produced `out` is recorded
in `results`. -/
def cell4 (w : World) (s : St) : St :=
  let s := gc_collect s
  let (start_mem, s) := sampleMem w s
  let (start_time, s) := timeTime w s
  let s := invokeEvt Callee.raw s
  let (out, s) := block_until_ready (matmul x y) s
  let (end_time, s) := timeTime w s
  let (end_mem, s) := sampleMem w s
  let s := printLine (OutLine.timeLine "Un-JITed Execution Time:"
    (end_time - start_time)) s
  let s := printLine (OutLine.memLine (end_mem - start_mem)) s
  { s with results := s.results ++ [out] }

/-- Cell 5, line by line: `gc.collect()`; `jit_matmul =
jax.jit(matmul)`; then the same measured block as cell 4 around
`jit_matmul(x, y).block_until_ready()` (the first, cold, call).  Returns
the handle for cell 6. -/
def cell5 (w : World) (s : St) : JitHandle × St :=
  let s := gc_collect s
  let h := jit_matmul
  let s := { s with events := s.events ++ [Event.jitConstruct] }
  let (start_mem, s) := sampleMem w s
  let (start_time, s) := timeTime w s
  let s := invokeEvt Callee.jitted s
  let (out0, _compiled, h) := h.call x y
  let (out, s) := block_until_ready out0 s
  let (end_time, s) := timeTime w s
  let (end_mem, s) := sampleMem w s
  let s := printLine (OutLine.timeLine "JITed (First Call) Execution Time:"
    (end_time - start_time)) s
  let s := printLine (OutLine.memLine (end_mem - start_mem)) s
  (h, { s with results := s.results ++ [out] })

/-- Cell 6, line by line: the same measured block around the second,
warm, call `jit_matmul(x, y).block_until_ready()` through the handle
cell 5 produced. -/
def cell6 (w : World) (h : JitHandle) (s : St) : JitHandle × St :=
  let s := gc_collect s
  let (start_mem, s) := sampleMem w s
  let (start_time, s) := timeTime w s
  let s := invokeEvt Callee.jitted s
  let (out0, _compiled, h) := h.call x y
  let (out, s) := block_until_ready out0 s
  let (end_time, s) := timeTime w s
  let (end_mem, s) := sampleMem w s
  let s := printLine (OutLine.timeLine "JITed (Second Call) Execution Time:"
    (end_time - start_time)) s
  let s := printLine (OutLine.memLine (end_mem - start_mem)) s
  (h, { s with results := s.results ++ [out] })

/-- Cell 7: the `Markdown(...)` value the notebook displays — a rich
display output of the notebook front end, not a line on stdout. -/
def interpretationMarkdown : String :=
  "Interpretation: the first JIT run shows high latency due to compilation; the second JIT run is significantly faster; memory differences vary by platform."

/-- Cell 7: emitting the Markdown display. -/
def cell7 (s : St) : St :=
  { s with displays := s.displays ++ [interpretationMarkdown] }

/-- The whole notebook run, cells in order.  Cells 2 and 3 only define
`get_memory_usage_mb`, `matmul`, `x` and `y` (embedded above as
definitions) and produce no observable step. -/
def script (w : World) : JitHandle × St :=
  let s := St.init
  let s := cell1 w s
  let s := cell4 w s
  let (h, s) := cell5 w s
  let (h, s) := cell6 w h s
  let s := cell7 s
  (h, s)

/-- A run environment with simple concrete readings: the i-th clock
reading is i seconds, the i-th rss reading is i megabytes. -/
def demoWorld : World :=
  { platform := "cpu", clock := fun i => (i : ℚ),
    rss := fun i => i * 1024 * 1024 }

/-- A run environment in which the system wall clock is stepped back
between the two `time.time()` samples of cell 4: the first reading is
1.0, every later one 0.0.  `time.time()` reads the wall clock, which the
OS may set back, so this is a legal environment for the source code. -/
def backClock : World :=
  { platform := "cpu", clock := fun i => if i = 0 then 1 else 0,
    rss := fun _ => 0 }

/-- A run environment in which the resident set size shrinks across
cell 4: 2 MiB at the first sample, 1 MiB afterwards. -/
def memDrop : World :=
  { platform := "cpu", clock := fun _ => 0,
    rss := fun i => if i = 0 then 2 * 1024 * 1024 else 1024 * 1024 }

/-- Claim C3: each measurement follows exactly the step order gc pass →
memory sample → time sample → invoke and block until materialized → time
sample → memory sample, and reports the pair (end time − start time,
end memory − start memory); the blocking wait precedes the end-of-interval
samples.  Stated for cell 4 (the un-jitted measurement) and cell 6 (the
warm jitted measurement), each from an arbitrary entry state. -/
theorem measurement_step_order (w : World) (s : St) (h : JitHandle) :
    ((cell4 w s).events = s.events ++
        [Event.gcCollect, Event.memSample (w.rss s.mIdx),
         Event.timeSample (w.clock s.tIdx), Event.invoke Callee.raw,
         Event.blockUntilReady, Event.timeSample (w.clock (s.tIdx + 1)),
         Event.memSample (w.rss (s.mIdx + 1))] ∧
      (cell4 w s).stdout = s.stdout ++
        [OutLine.timeLine "Un-JITed Execution Time:"
           (w.clock (s.tIdx + 1) - w.clock s.tIdx),
         OutLine.memLine (get_memory_usage_mb (w.rss (s.mIdx + 1)) -
           get_memory_usage_mb (w.rss s.mIdx))]) ∧
    ((cell6 w h s).2.events = s.events ++
        [Event.gcCollect, Event.memSample (w.rss s.mIdx),
         Event.timeSample (w.clock s.tIdx), Event.invoke Callee.jitted,
         Event.blockUntilReady, Event.timeSample (w.clock (s.tIdx + 1)),
         Event.memSample (w.rss (s.mIdx + 1))] ∧
      (cell6 w h s).2.stdout = s.stdout ++
        [OutLine.timeLine "JITed (Second Call) Execution Time:"
           (w.clock (s.tIdx + 1) - w.clock s.tIdx),
         OutLine.memLine (get_memory_usage_mb (w.rss (s.mIdx + 1)) -
           get_memory_usage_mb (w.rss s.mIdx))]) := by
  refine ⟨⟨?_, ?_⟩, ?_, ?_⟩ <;>
    simp [cell4, cell6, gc_collect, sampleMem, timeTime, invokeEvt,
      block_until_ready, printLine, List.append_assoc]

/-- Claim C4 (the code-bug evaluation): cell 4 computes the elapsed time
with `time.time()`, the non-monotonic wall clock; in an environment
where the clock is stepped back between the two samples the cell prints
a negative elapsed time, −1 seconds. -/
theorem elapsed_negative_when_clock_steps_back :
    (cell4 backClock St.init).stdout =
      [OutLine.timeLine "Un-JITed Execution Time:" (-1),
       OutLine.memLine 0] ∧
    (-1 : ℚ) < 0 := by
  constructor
  · norm_num [cell4, gc_collect, sampleMem, timeTime, invokeEvt,
      block_until_ready, printLine, backClock, St.init, get_memory_usage_mb]
  · norm_num

/-- The execution time the notebook's recorded run printed for the first
(cold) jitted call, in seconds (output of cell 5 in the source). -/
def jitFirstCallSeconds : ℚ := 0.06277608871459961

/-- The execution time the notebook's recorded run printed for the
second (warm) jitted call, in seconds (output of cell 6 in the source). -/
def jitSecondCallSeconds : ℚ := 0.04286909103393555

/-- The first (cold) call through the freshly constructed handle, on the
script's arguments. -/
def coldStep : NDArray × Bool × JitHandle := jit_matmul.call x y

/-- The second (warm) call through the handle the cold call returned, on
the same arguments. -/
def warmStep : NDArray × Bool × JitHandle := coldStep.2.2.call x y

/-- Modelled from the spec: the latency of one call through the handle,
given a compilation cost `c` and an execution cost `e` for the fixed
signature — a call that compiles costs `c + e`, a call served from the
cache costs `e` ("the first invocation with a given argument-shape/dtype
signature performs a compile-then-execute step, and subsequent
invocations with the same signature execute a precompiled artifact
directly, skipping the compile step"). -/
def modelElapsed (c e : ℚ) (compiled : Bool) : ℚ :=
  (if compiled then c else 0) + e

/-- Claim C5: the cold call compiles and the warm call does not, so for
every positive compilation cost the warm call's latency is at most — in
fact strictly less than — the cold call's; and in the notebook's
recorded 2048 x 2048 float32 run the warm call's printed elapsed time is
strictly less than the cold call's. -/
theorem warm_call_faster_than_cold (c e : ℚ) (hc : 0 < c) :
    coldStep.2.1 = true ∧ warmStep.2.1 = false ∧
    modelElapsed c e warmStep.2.1 ≤ modelElapsed c e coldStep.2.1 ∧
    modelElapsed c e warmStep.2.1 < modelElapsed c e coldStep.2.1 ∧
    jitSecondCallSeconds < jitFirstCallSeconds := by
  have h1 : coldStep.2.1 = true := rfl
  have h2 : warmStep.2.1 = false := by
    simp [warmStep, coldStep, jit_matmul, jaxJit, JitHandle.call, lookupSig]
  refine ⟨h1, h2, ?_, ?_, ?_⟩
  · rw [h1, h2]; simp [modelElapsed]; linarith
  · rw [h1, h2]; simp [modelElapsed]; linarith
  · norm_num [jitSecondCallSeconds, jitFirstCallSeconds]

/-- Witness for C5: the inequalities at compilation cost 1 and execution
cost 0. -/
theorem warm_call_faster_than_cold_witness :
    coldStep.2.1 = true ∧ warmStep.2.1 = false ∧
    modelElapsed 1 0 warmStep.2.1 ≤ modelElapsed 1 0 coldStep.2.1 ∧
    modelElapsed 1 0 warmStep.2.1 < modelElapsed 1 0 coldStep.2.1 ∧
    jitSecondCallSeconds < jitFirstCallSeconds :=
  warm_call_faster_than_cold 1 0 (by norm_num)

/-- Claim C6: one run of the script performs exactly three measured
executions, in order — the raw function, then the first (cold) call
through the jit wrapper, which is constructed only after the raw
measurement, then the second (warm) call through the same wrapper — and
reports a time line and a memory line for each.  The full event trace of
a run, for every environment: the raw measurement's seven steps, then
the wrapper construction, then the cold measurement, then the warm
measurement. -/
theorem benchmark_three_measured_runs (w : World) :
    (script w).2.events =
      [Event.gcCollect, Event.memSample (w.rss 0), Event.timeSample (w.clock 0),
       Event.invoke Callee.raw, Event.blockUntilReady,
       Event.timeSample (w.clock 1), Event.memSample (w.rss 1),
       Event.gcCollect, Event.jitConstruct,
       Event.memSample (w.rss 2), Event.timeSample (w.clock 2),
       Event.invoke Callee.jitted, Event.blockUntilReady,
       Event.timeSample (w.clock 3), Event.memSample (w.rss 3),
       Event.gcCollect,
       Event.memSample (w.rss 4), Event.timeSample (w.clock 4),
       Event.invoke Callee.jitted, Event.blockUntilReady,
       Event.timeSample (w.clock 5), Event.memSample (w.rss 5)] ∧
    (script w).2.stdout =
      [OutLine.deviceLine w.platform,
       OutLine.timeLine "Un-JITed Execution Time:" (w.clock 1 - w.clock 0),
       OutLine.memLine (get_memory_usage_mb (w.rss 1) -
         get_memory_usage_mb (w.rss 0)),
       OutLine.timeLine "JITed (First Call) Execution Time:"
         (w.clock 3 - w.clock 2),
       OutLine.memLine (get_memory_usage_mb (w.rss 3) -
         get_memory_usage_mb (w.rss 2)),
       OutLine.timeLine "JITed (Second Call) Execution Time:"
         (w.clock 5 - w.clock 4),
       OutLine.memLine (get_memory_usage_mb (w.rss 5) -
         get_memory_usage_mb (w.rss 4))] ∧
    (script w).2.results.length = 3 := by
  refine ⟨?_, ?_, ?_⟩ <;>
    simp [script, cell1, cell4, cell5, cell6, cell7, St.init, gc_collect,
      sampleMem, timeTime, invokeEvt, block_until_ready, printLine,
      jit_matmul, jaxJit, JitHandle.call, lookupSig]

/-- A failure the measured Python callable can raise (e.g. a shape
mismatch inside `jnp.dot`); carries the failure description. -/
structure JaxError where
  msg : String
deriving DecidableEq, Repr

/-- The measurement cell pattern of cells 4-6, with the measured
callable abstracted and Python exception semantics made explicit: the
callable either returns an array or raises.  The cell runs the same line
sequence as `cell4`/`cell6` — gc pass, memory sample, time sample,
invocation, blocking wait, time sample, memory sample, two prints; the
source wraps none of it in try/except, so a raise leaves the cell at the
point of the call: the first component reports the raise, the returned
state holds whatever had happened before it. -/
def profileMeasuredCell (fn : NDArray → NDArray → Except JaxError NDArray)
    (a b : NDArray) (label : String) (who : Callee) (w : World) (s : St) :
    Except JaxError Unit × St :=
  let s := gc_collect s
  let (start_mem, s) := sampleMem w s
  let (start_time, s) := timeTime w s
  let s := invokeEvt who s
  match fn a b with
  | Except.error e => (Except.error e, s)
  | Except.ok out0 =>
    let (out, s) := block_until_ready out0 s
    let (end_time, s) := timeTime w s
    let (end_mem, s) := sampleMem w s
    let s := printLine (OutLine.timeLine label (end_time - start_time)) s
    let s := printLine (OutLine.memLine (end_mem - start_mem)) s
    (Except.ok (), { s with results := s.results ++ [out] })

/-- When the measured callable cannot raise, the abstracted cell is
exactly cell 4: the two embeddings agree. -/
theorem profileMeasuredCell_ok_eq_cell4 (w : World) (s : St) :
    profileMeasuredCell (fun a b => Except.ok (matmul a b)) x y
      "Un-JITed Execution Time:" Callee.raw w s = (Except.ok (), cell4 w s) :=
  rfl

/-- Claim C7: the harness handles no error condition — a failure raised
inside the measured callable propagates to the caller unmodified (the
cell's outcome is that very failure) and the cell prints nothing: stdout
is exactly what it was when the cell started. -/
theorem failure_propagates_unhandled
    (fn : NDArray → NDArray → Except JaxError NDArray) (a b : NDArray)
    (label : String) (who : Callee) (w : World) (s : St) (e : JaxError)
    (hf : fn a b = Except.error e) :
    (profileMeasuredCell fn a b label who w s).1 = Except.error e ∧
    (profileMeasuredCell fn a b label who w s).2.stdout = s.stdout := by
  constructor <;>
    simp [profileMeasuredCell, hf, gc_collect, sampleMem, timeTime, invokeEvt]

/-- A measured callable that always raises, as `jnp.dot` does on a shape
mismatch. -/
def failingDot : NDArray → NDArray → Except JaxError NDArray :=
  fun _ _ => Except.error { msg := "dot shapes are incompatible" }

/-- Witness for C7: the always-raising callable measured on the
script's arrays from the initial state — the raise comes back unmodified
and nothing is printed. -/
theorem failure_propagates_unhandled_witness :
    (profileMeasuredCell failingDot x y "Un-JITed Execution Time:"
        Callee.raw demoWorld St.init).1 =
      Except.error { msg := "dot shapes are incompatible" } ∧
    (profileMeasuredCell failingDot x y "Un-JITed Execution Time:"
        Callee.raw demoWorld St.init).2.stdout = St.init.stdout :=
  failure_propagates_unhandled failingDot x y "Un-JITed Execution Time:"
    Callee.raw demoWorld St.init { msg := "dot shapes are incompatible" } rfl

/-- Counterexample to claim C8 as stated: in a concrete environment the
script writes seven lines to standard output, not four. -/
theorem stdout_is_not_four_lines :
    (script demoWorld).2.stdout.length = 7 ∧
    (script demoWorld).2.stdout.length ≠ 4 := by
  have h : (script demoWorld).2.stdout.length = 7 := by
    simp [script, cell1, cell4, cell5, cell6, cell7, St.init, gc_collect,
      sampleMem, timeTime, invokeEvt, block_until_ready, printLine,
      jit_matmul, jaxJit, JitHandle.call, lookupSig]
  exact ⟨h, by rw [h]; norm_num⟩

/-- Claim C8 as amended: per run the script prints exactly seven lines
of human-readable text to standard output — the device banner, then a
time line and a memory line for each of the three measurements — and the
interpretive summary is emitted as a notebook rich display (a Markdown
object), not printed to standard output. -/
theorem script_prints_seven_lines (w : World) :
    (script w).2.stdout.length = 7 ∧
    (script w).2.stdout =
      [OutLine.deviceLine w.platform,
       OutLine.timeLine "Un-JITed Execution Time:" (w.clock 1 - w.clock 0),
       OutLine.memLine (get_memory_usage_mb (w.rss 1) -
         get_memory_usage_mb (w.rss 0)),
       OutLine.timeLine "JITed (First Call) Execution Time:"
         (w.clock 3 - w.clock 2),
       OutLine.memLine (get_memory_usage_mb (w.rss 3) -
         get_memory_usage_mb (w.rss 2)),
       OutLine.timeLine "JITed (Second Call) Execution Time:"
         (w.clock 5 - w.clock 4),
       OutLine.memLine (get_memory_usage_mb (w.rss 5) -
         get_memory_usage_mb (w.rss 4))] ∧
    (script w).2.displays = [interpretationMarkdown] := by
  refine ⟨?_, ?_, ?_⟩ <;>
    simp [script, cell1, cell4, cell5, cell6, cell7, St.init, gc_collect,
      sampleMem, timeTime, invokeEvt, block_until_ready, printLine,
      jit_matmul, jaxJit, JitHandle.call, lookupSig]

/-- Claim C9: all three measured executions apply the same operation to
the same two arrays `x` and `y`, so (for every environment) the three
recorded results are all `matmul x y`; that common result is a
2048 x 2048 float32 matrix every entry of which equals 2048. -/
theorem three_runs_same_result (w : World) :
    (script w).2.results = [matmul x y, matmul x y, matmul x y] ∧
    (matmul x y).rows = 2048 ∧ (matmul x y).cols = 2048 ∧
    (matmul x y).dtype = DType.float32 ∧
    ∀ i j : Nat, (matmul x y).data i j = 2048 := by
  refine ⟨?_, rfl, rfl, rfl, fun i j => ?_⟩
  · simp [script, cell1, cell4, cell5, cell6, cell7, St.init, gc_collect,
      sampleMem, timeTime, invokeEvt, block_until_ready, printLine,
      jit_matmul, jaxJit, JitHandle.call, lookupSig]
  · simp [matmul, x, y, jnpOnes, size, Finset.sum_const, Finset.card_range]

/-- Claim C10: the reported memory figure is the raw difference of two
resident-set readings, each converted to megabytes as rss / 1024 / 1024,
with no clamping: cell 4 prints exactly
`get_memory_usage_mb(end rss) - get_memory_usage_mb(start rss)`, and in
an environment whose resident set shrinks by one megabyte across the
cell the printed memory line is the negative value −1, as-is. -/
theorem memory_delta_is_raw_difference :
    (∀ rssBytes : Nat,
      get_memory_usage_mb rssBytes = (rssBytes : ℚ) / 1024 / 1024) ∧
    (∀ (w : World) (s : St),
      (cell4 w s).stdout = s.stdout ++
        [OutLine.timeLine "Un-JITed Execution Time:"
           (w.clock (s.tIdx + 1) - w.clock s.tIdx),
         OutLine.memLine (get_memory_usage_mb (w.rss (s.mIdx + 1)) -
           get_memory_usage_mb (w.rss s.mIdx))]) ∧
    (cell4 memDrop St.init).stdout =
      [OutLine.timeLine "Un-JITed Execution Time:" 0,
       OutLine.memLine (-1)] ∧
    (-1 : ℚ) < 0 := by
  refine ⟨fun _ => rfl, fun w s => ?_, ?_, by norm_num⟩
  · simp [cell4, gc_collect, sampleMem, timeTime, invokeEvt,
      block_until_ready, printLine]
  · norm_num [cell4, gc_collect, sampleMem, timeTime, invokeEvt,
      block_until_ready, printLine, memDrop, St.init, get_memory_usage_mb]
